import Mathlib

/-!
Verification of the structured-error mechanism of `AlphaException.cpp`.

The C++ source is shallowly embedded: each class becomes a structure, each
member function a Lean function on that structure, mutation becomes explicit
state passing, and `throw`/`catch` becomes `Except`.  Machine integers
(`unsigned int`, `size_t`) are modelled as `Nat` (no arithmetic on them is
performed anywhere in the source, so overflow is irrelevant); the `double`
field of `Order` is modelled as `ℚ` (the program only stores and copies the
literals `2.0` and `5.0`, both exact, and performs no floating-point
arithmetic).
-/

/-- `CompileTimeFrame` (the spec's SourceOrigin): function signature, file,
line and column captured by `std::source_location` at a call site. -/
structure CompileTimeFrame where
  function_name : String
  file_name : String
  line : Nat
  column : Nat
deriving DecidableEq, Repr

/-- The chained stream insertion
`os << frame.file_name << "(" << frame.line << ":" << frame.column
    << ") \x60" << frame.function_name << "\x60"`
of `operator<<(std::basic_ostream&, const CompileTimeFrame&)`, modelled as an
accumulating append in exactly the source's left-to-right order. -/
def CompileTimeFrame.put (os : String) (f : CompileTimeFrame) : String :=
  ((((((os ++ f.file_name) ++ "(") ++ toString f.line) ++ ":")
      ++ toString f.column) ++ ") `") ++ f.function_name ++ "`"

/-- Rendering a frame on a fresh stream. -/
def CompileTimeFrame.render (f : CompileTimeFrame) : String :=
  CompileTimeFrame.put "" f

/-- `CompileTimeStackTrace<N>`: a fixed array of `N` frames of which the
first `current_size_` are in use; modelled as the list of in-use frames
(so `size()` is the list length). -/
structure CompileTimeStackTrace (N : Nat) where
  frames_ : List CompileTimeFrame
deriving DecidableEq, Repr

/-- The default-constructed `CompileTimeStackTrace<N>` (`current_size_ = 0`). -/
def CompileTimeStackTrace.empty (N : Nat) : CompileTimeStackTrace N :=
  ⟨[]⟩

/-- `size()` accessor. -/
def CompileTimeStackTrace.size {N : Nat} (t : CompileTimeStackTrace N) : Nat :=
  t.frames_.length

/-- `push_frame`: stores the frame at index `current_size_` and increments it,
but only when `current_size_ < N`; otherwise the call does nothing. -/
def CompileTimeStackTrace.push_frame {N : Nat} (t : CompileTimeStackTrace N)
    (f : CompileTimeFrame) : CompileTimeStackTrace N :=
  if t.frames_.length < N then ⟨t.frames_ ++ [f]⟩ else t

/-- Applying a whole sequence of `push_frame` calls, used to range over every
trace reachable from the default-constructed one (the only constructor, and
`push_frame` is the only mutator). -/
def CompileTimeStackTrace.pushList {N : Nat} (t : CompileTimeStackTrace N)
    (fs : List CompileTimeFrame) : CompileTimeStackTrace N :=
  fs.foldl CompileTimeStackTrace.push_frame t

/-- `HybridStackTrace<N>` (the spec's FrameLog): compile-time static frames
plus a vector of runtime dynamic frames. -/
structure HybridStackTrace (N : Nat) where
  static_frames_ : CompileTimeStackTrace N
  dynamic_frames_ : List CompileTimeFrame
deriving DecidableEq, Repr

/-- The constructor `HybridStackTrace(frame = CompileTimeFrame{})`:
default-constructs the members, then `static_frames_.push_frame(frame)`.
`f` is the `CompileTimeFrame` captured at the construction site. -/
def HybridStackTrace.init (N : Nat) (f : CompileTimeFrame) :
    HybridStackTrace N :=
  { static_frames_ := (CompileTimeStackTrace.empty N).push_frame f
    dynamic_frames_ := [] }

/-- `add_dynamic_frame`: `dynamic_frames_.push_back(frame)`. -/
def HybridStackTrace.add_dynamic_frame {N : Nat} (t : HybridStackTrace N)
    (f : CompileTimeFrame) : HybridStackTrace N :=
  { t with dynamic_frames_ := t.dynamic_frames_ ++ [f] }

/-- `pop_dynamic_frame`: `if (!dynamic_frames_.empty()) pop_back();`. -/
def HybridStackTrace.pop_dynamic_frame {N : Nat} (t : HybridStackTrace N) :
    HybridStackTrace N :=
  if t.dynamic_frames_.isEmpty then t
  else { t with dynamic_frames_ := t.dynamic_frames_.dropLast }

/-- One range-for loop of
`operator<<(std::basic_ostream&, const HybridStackTrace&)`: each iteration
streams `os << tag << frame << "\n"` for one frame. -/
def putFrameLoop (tag : String) (os : String)
    (fs : List CompileTimeFrame) : String :=
  fs.foldl (fun acc f => CompileTimeFrame.put (acc ++ tag) f ++ "\n") os

/-- The whole stream operator of `HybridStackTrace`: the static-frame loop
(tag `"Static: "`) runs first on the incoming stream, then the dynamic-frame
loop (tag `"Dynamic: "`) on its result. -/
def HybridStackTrace.put {N : Nat} (os : String)
    (t : HybridStackTrace N) : String :=
  putFrameLoop "Dynamic: "
    (putFrameLoop "Static: " os t.static_frames_.frames_)
    t.dynamic_frames_

/-- Rendering a trace on a fresh stream. -/
def HybridStackTrace.render {N : Nat} (t : HybridStackTrace N) : String :=
  t.put ""

/-- The individual lines the stream operator emits, one per printed frame
(= one loop iteration), in emission order. -/
def HybridStackTrace.renderLines {N : Nat} (t : HybridStackTrace N) :
    List String :=
  t.static_frames_.frames_.map (fun f => "Static: " ++ f.render ++ "\n")
    ++ t.dynamic_frames_.map (fun f => "Dynamic: " ++ f.render ++ "\n")

/-- A `StackFrameGuard` lifetime event on the thread's trace: `enter f`
is the guard constructor (`add_dynamic_frame f`), `exit` is the destructor
(`pop_dynamic_frame`).  C++ runs the destructor on every scope exit, normal
return and exception propagation alike, so an unwinding error path is just a
sequence containing the matching `exit`s. -/
inductive GuardEv where
  | enter (f : CompileTimeFrame)
  | exit
deriving DecidableEq, Repr

/-- Running a sequence of guard events against a trace. -/
def execEvents {N : Nat} : List GuardEv → HybridStackTrace N → HybridStackTrace N
  | [], t => t
  | GuardEv.enter f :: es, t => execEvents es (t.add_dynamic_frame f)
  | GuardEv.exit :: es, t => execEvents es t.pop_dynamic_frame

/-- Ghost state: the frames of the currently-live guards, outermost first,
after a sequence of guard events starting from live stack `gs`. -/
def liveGuards : List GuardEv → List CompileTimeFrame → List CompileTimeFrame
  | [], gs => gs
  | GuardEv.enter f :: es, gs => liveGuards es (gs ++ [f])
  | GuardEv.exit :: es, gs => liveGuards es gs.dropLast

/-- A guard-event sequence is consistent with live stack `gs` when every
`exit` is the destructor of a live guard (C++ scoping guarantees this: a
destructor only ever runs for a constructed object). -/
def consistent : List GuardEv → List CompileTimeFrame → Bool
  | [], _ => true
  | GuardEv.enter f :: es, gs => consistent es (gs ++ [f])
  | GuardEv.exit :: es, gs => !gs.isEmpty && consistent es gs.dropLast

/-- `AlphaException<DATA_T, MaxFrames>`: message, payload, creation-site
location, and the backtrace; the constructor's member initializer
`backtrace_(trace)` copies the `HybridStackTrace` argument by value into the
exception, so the stored field is whatever the trace held at construction. -/
structure AlphaException (DATA_T : Type) (MaxFrames : Nat) where
  err_str : String
  data_ : DATA_T
  location_ : CompileTimeFrame
  backtrace_ : HybridStackTrace MaxFrames
deriving DecidableEq, Repr

/-- `what()` (the spec's `message()`). -/
def AlphaException.what {D : Type} {N : Nat} (e : AlphaException D N) :
    String := e.err_str

/-- `data()` (the spec's `payload()`). -/
def AlphaException.data {D : Type} {N : Nat} (e : AlphaException D N) : D :=
  e.data_

/-- `where()` (the spec's `origin()`); `where` is a Lean keyword, hence the
suffix. -/
def AlphaException.whereLoc {D : Type} {N : Nat} (e : AlphaException D N) :
    CompileTimeFrame := e.location_

/-- `stack()` (the spec's `trace()`). -/
def AlphaException.stack {D : Type} {N : Nat} (e : AlphaException D N) :
    HybridStackTrace N := e.backtrace_

/-- The file holding all of the business logic and every capture site. -/
def alphaSourceFile : String := "AlphaException.cpp"

/-- `CompileTimeFrame{}` captured by the default argument of the
`StackFrameGuard` constructed at the top of `UpdateOrder` (line 214). -/
def updateOrderGuardSite : CompileTimeFrame :=
  ⟨"Order UpdateOrder(const Order&)", alphaSourceFile, 214, 20⟩

/-- `CompileTimeFrame{}` constructed inside the `throw` of `UpdateOrder`
(line 220): the raising call site. -/
def updateOrderThrowSite : CompileTimeFrame :=
  ⟨"Order UpdateOrder(const Order&)", alphaSourceFile, 220, 34⟩

/-- `CompileTimeFrame{}` captured by the guard of `findOrder` (line 226). -/
def findOrderGuardSite : CompileTimeFrame :=
  ⟨"Order findOrder(unsigned int)", alphaSourceFile, 226, 20⟩

/-- `CompileTimeFrame{}` constructed inside the `throw` of `findOrder`
(line 232): the raising call site. -/
def findOrderThrowSite : CompileTimeFrame :=
  ⟨"Order findOrder(unsigned int)", alphaSourceFile, 232, 34⟩

/-- `CompileTimeFrame{}` captured by the guard of `processOrder` (line 238). -/
def processOrderGuardSite : CompileTimeFrame :=
  ⟨"bool processOrder(unsigned int)", alphaSourceFile, 238, 20⟩

/-- `CompileTimeFrame{}` captured by `main_guard` in `main` (line 258). -/
def mainGuardSite : CompileTimeFrame :=
  ⟨"int main()", alphaSourceFile, 258, 24⟩

/-- Default argument of the `thread_local HybridStackTrace<32> current_trace`
declaration (line 210): the frame of the trace's own construction site. -/
def currentTraceInitSite : CompileTimeFrame :=
  ⟨"", alphaSourceFile, 210, 33⟩

/-- `struct Order { unsigned int id_; double value_; }`.  The `double` is
modelled as `ℚ`: the program only stores the exact literals `2.0`/`5.0` and
never computes with them. -/
structure Order where
  id_ : Nat
  value_ : ℚ
deriving DecidableEq, Repr

/-- The initializer of the global
`std::map<unsigned int, Order> orders{{1,Order{1,2.0}},{11,Order{11,5.0}}}`,
as an association list in key order. -/
def ordersInit : List (Nat × Order) :=
  [(1, ⟨1, 2⟩), (11, ⟨11, 5⟩)]

/-- `it->second = ord` on a found iterator: replace the mapped value at the
given key, keys and ordering untouched. -/
def setOrder (l : List (Nat × Order)) (k : Nat) (v : Order) :
    List (Nat × Order) :=
  l.map (fun p => if p.1 = k then (p.1, v) else p)

/-- The mutable globals the business logic touches: the `orders` map and the
calling thread's `thread_local` `current_trace`. -/
structure ProgState where
  orders : List (Nat × Order)
  current_trace : HybridStackTrace 32
deriving DecidableEq, Repr

/-- `using MyExceptionErrsVoid = AlphaException<std::nullptr_t>` with the
default `MaxFrames = 32`; `std::nullptr_t` is a unit type. -/
abbrev MyExceptionErrsVoid := AlphaException Unit 32

/-- `Order UpdateOrder(const Order& ord)`: construct the guard (push), look up
`ord.id_`; on a miss throw `MyExceptionErrsVoid("update error : ", nullptr,
CompileTimeFrame{}, current_trace)` — the guard's destructor pops during the
unwinding — and on a hit assign `it->second = ord`, return it, and let the
guard pop on the normal exit. -/
def UpdateOrder (ord : Order) (st : ProgState) :
    Except MyExceptionErrsVoid Order × ProgState :=
  let t1 := st.current_trace.add_dynamic_frame updateOrderGuardSite
  match st.orders.lookup ord.id_ with
  | none =>
      let e : MyExceptionErrsVoid := ⟨"update error : ", (), updateOrderThrowSite, t1⟩
      (Except.error e, { orders := st.orders, current_trace := t1.pop_dynamic_frame })
  | some _ =>
      (Except.ok ord,
        { orders := setOrder st.orders ord.id_ ord
          current_trace := t1.pop_dynamic_frame })

/-- `Order findOrder(unsigned int id)`: guard push, lookup, throw
`MyExceptionErrsVoid("Bad Order id", ...)` on a miss, return the stored order
on a hit; the guard pops on both paths. -/
def findOrder (id : Nat) (st : ProgState) :
    Except MyExceptionErrsVoid Order × ProgState :=
  let t1 := st.current_trace.add_dynamic_frame findOrderGuardSite
  match st.orders.lookup id with
  | none =>
      let e : MyExceptionErrsVoid := ⟨"Bad Order id", (), findOrderThrowSite, t1⟩
      (Except.error e, { orders := st.orders, current_trace := t1.pop_dynamic_frame })
  | some ord =>
      (Except.ok ord, { st with current_trace := t1.pop_dynamic_frame })

/-- `bool processOrder(unsigned int id)`: guard push, `try { findOrder(id);
... return true; } catch (MyExceptionErrsVoid&) { ... } return false;`.
The caught exception is only printed, so the model returns the success flag
together with the caught exception, if any. -/
def processOrder (id : Nat) (st : ProgState) :
    (Bool × Option MyExceptionErrsVoid) × ProgState :=
  let t1 := st.current_trace.add_dynamic_frame processOrderGuardSite
  match findOrder id { st with current_trace := t1 } with
  | (Except.ok _, st2) =>
      ((true, none), { st2 with current_trace := st2.current_trace.pop_dynamic_frame })
  | (Except.error e, st2) =>
      ((false, some e), { st2 with current_trace := st2.current_trace.pop_dynamic_frame })

/-! ### Helper lemmas -/

theorem CompileTimeFrame.put_eq (os : String) (f : CompileTimeFrame) :
    CompileTimeFrame.put os f = os ++ f.render := by
  simp [CompileTimeFrame.put, CompileTimeFrame.render, String.append_assoc,
    String.empty_append]

theorem stringJoin_append (l1 l2 : List String) :
    String.join (l1 ++ l2) = String.join l1 ++ String.join l2 := by
  apply String.ext
  simp [String.data_join]

theorem stringJoin_cons (a : String) (l : List String) :
    String.join (a :: l) = a ++ String.join l := by
  apply String.ext
  simp [String.data_join]

theorem putFrameLoop_eq (tag : String) (fs : List CompileTimeFrame) :
    ∀ os : String,
      putFrameLoop tag os fs
        = os ++ String.join (fs.map (fun f => tag ++ f.render ++ "\n")) := by
  induction fs with
  | nil =>
      intro os
      simp [putFrameLoop, String.join, String.append_empty]
  | cons f fs ih =>
      intro os
      simp only [putFrameLoop, List.foldl_cons, List.map_cons] at ih ⊢
      rw [ih, CompileTimeFrame.put_eq, stringJoin_cons]
      simp [String.append_assoc]

theorem HybridStackTrace.add_dynamic_frame_dyn {N : Nat}
    (t : HybridStackTrace N) (f : CompileTimeFrame) :
    (t.add_dynamic_frame f).dynamic_frames_ = t.dynamic_frames_ ++ [f] := rfl

theorem HybridStackTrace.pop_dynamic_frame_dyn {N : Nat}
    (t : HybridStackTrace N) :
    (t.pop_dynamic_frame).dynamic_frames_ = t.dynamic_frames_.dropLast := by
  by_cases h : t.dynamic_frames_.isEmpty <;>
    simp_all [HybridStackTrace.pop_dynamic_frame, List.isEmpty_iff]

theorem HybridStackTrace.pop_dynamic_frame_static {N : Nat}
    (t : HybridStackTrace N) :
    (t.pop_dynamic_frame).static_frames_ = t.static_frames_ := by
  by_cases h : t.dynamic_frames_.isEmpty <;>
    simp [HybridStackTrace.pop_dynamic_frame, h]

theorem execEvents_static {N : Nat} (es : List GuardEv) :
    ∀ t : HybridStackTrace N,
      (execEvents es t).static_frames_ = t.static_frames_ := by
  induction es with
  | nil => intro t; rfl
  | cons e es ih =>
      intro t
      cases e with
      | enter f => exact (ih _).trans rfl
      | exit => exact (ih _).trans (t.pop_dynamic_frame_static)

theorem execEvents_dyn {N : Nat} (es : List GuardEv) :
    ∀ t : HybridStackTrace N,
      consistent es t.dynamic_frames_ = true →
      (execEvents es t).dynamic_frames_ = liveGuards es t.dynamic_frames_ := by
  induction es with
  | nil => intro t _; rfl
  | cons e es ih =>
      intro t h
      cases e with
      | enter f =>
          simp only [execEvents, liveGuards]
          have h' : consistent es (t.add_dynamic_frame f).dynamic_frames_ = true := by
            rw [t.add_dynamic_frame_dyn f]
            simpa [consistent] using h
          rw [ih _ h', t.add_dynamic_frame_dyn f]
      | exit =>
          simp only [consistent, Bool.and_eq_true] at h
          simp only [execEvents, liveGuards]
          have h' : consistent es t.pop_dynamic_frame.dynamic_frames_ = true := by
            rw [t.pop_dynamic_frame_dyn]
            exact h.2
          rw [ih _ h', t.pop_dynamic_frame_dyn]

/-! ### Claim theorems -/

/-- C1: on one thread, for every consistent sequence of `StackFrameGuard`
constructions and destructions (normal or unwinding exits alike), the dynamic
entries of the thread's FrameLog are exactly the frames of the currently-live
guards, outermost first, and the dynamic count is 0 once all guards have
exited. -/
theorem scopedFrame_log_equals_live_guards {N : Nat}
    (t : HybridStackTrace N) (es : List GuardEv)
    (h : consistent es t.dynamic_frames_ = true) :
    (execEvents es t).dynamic_frames_ = liveGuards es t.dynamic_frames_
      ∧ (liveGuards es t.dynamic_frames_ = [] →
          ((execEvents es t).dynamic_frames_).length = 0) := by
  refine ⟨execEvents_dyn es t h, fun h0 => ?_⟩
  rw [execEvents_dyn es t h, h0]
  rfl

theorem scopedFrame_log_equals_live_guards_witness :
    (execEvents
        [GuardEv.enter mainGuardSite, GuardEv.enter processOrderGuardSite,
          GuardEv.exit, GuardEv.exit]
        (HybridStackTrace.init 32 currentTraceInitSite)).dynamic_frames_
      = liveGuards
          [GuardEv.enter mainGuardSite, GuardEv.enter processOrderGuardSite,
            GuardEv.exit, GuardEv.exit]
          (HybridStackTrace.init 32 currentTraceInitSite).dynamic_frames_
      ∧ (liveGuards
            [GuardEv.enter mainGuardSite, GuardEv.enter processOrderGuardSite,
              GuardEv.exit, GuardEv.exit]
            (HybridStackTrace.init 32 currentTraceInitSite).dynamic_frames_ = [] →
          ((execEvents
              [GuardEv.enter mainGuardSite, GuardEv.enter processOrderGuardSite,
                GuardEv.exit, GuardEv.exit]
              (HybridStackTrace.init 32 currentTraceInitSite)).dynamic_frames_).length
            = 0) :=
  scopedFrame_log_equals_live_guards _ _ (by decide)

/-- The raise-then-mutate scenario of the snapshot claim: an
`AlphaException` is constructed from the thread's trace (the constructor's
`backtrace_(trace)` member initializer copies it), after which the thread's
log continues to evolve by further guard pushes and pops. -/
def raiseThenMutate (s : String) (loc : CompileTimeFrame)
    (t : HybridStackTrace 32) (es : List GuardEv) :
    MyExceptionErrsVoid × HybridStackTrace 32 :=
  (⟨s, (), loc, t⟩, execEvents es t)

/-- C2: an `AlphaException` constructed while the FrameLog's dynamic frames
are `[A, B, C]` captures exactly `[A, B, C]`, and any pushes or pops performed
on the log after construction leave the captured trace unchanged — value
snapshot, not a live reference. -/
theorem alphaException_trace_is_snapshot (A B C : CompileTimeFrame)
    (s : String) (loc : CompileTimeFrame) (t : HybridStackTrace 32)
    (es : List GuardEv) (h : t.dynamic_frames_ = [A, B, C]) :
    ((raiseThenMutate s loc t es).1.stack).dynamic_frames_ = [A, B, C] := by
  simpa [raiseThenMutate, AlphaException.stack] using h

theorem alphaException_trace_is_snapshot_witness :
    ((raiseThenMutate "Bad Order id" findOrderThrowSite
        (execEvents
          [GuardEv.enter mainGuardSite, GuardEv.enter processOrderGuardSite,
            GuardEv.enter findOrderGuardSite]
          (HybridStackTrace.init 32 currentTraceInitSite))
        [GuardEv.exit, GuardEv.exit, GuardEv.exit]).1.stack).dynamic_frames_
      = [mainGuardSite, processOrderGuardSite, findOrderGuardSite] :=
  alphaException_trace_is_snapshot mainGuardSite processOrderGuardSite
    findOrderGuardSite "Bad Order id" findOrderThrowSite _ _ (by decide)

/-- C4: `pop_dynamic_frame` on a FrameLog with no dynamic entries is a
no-op — the whole log, static frames included, is returned unchanged, and the
operation is total (never raises). -/
theorem pop_on_empty_log_is_noop {N : Nat} (t : HybridStackTrace N)
    (h : t.dynamic_frames_ = []) : t.pop_dynamic_frame = t := by
  simp [HybridStackTrace.pop_dynamic_frame, h]

theorem pop_on_empty_log_is_noop_witness :
    (HybridStackTrace.init 32 currentTraceInitSite).pop_dynamic_frame
      = HybridStackTrace.init 32 currentTraceInitSite :=
  pop_on_empty_log_is_noop _ rfl

/-- C5 evidence: `StackFrameGuard` declares no copy operations, and a class
with a destructor and an lvalue-reference member still has an implicitly
defined copy constructor in C++ (only copy *assignment* is deleted by the
reference member).  So `StackFrameGuard g2(g);` compiles: it performs no
push, yet its destructor pops.  Executed inside a scope whose log held
`[mainGuardSite]`, the scope `{ StackFrameGuard g(trace); StackFrameGuard
g2(g); }` yields events `enter, exit, exit` and leaves the log empty instead
of restoring `[mainGuardSite]` — one construction-push but two
destruction-pops, refuting "each guard contributes exactly one push and one
pop". -/
theorem stackFrameGuard_copy_unbalances_log :
    (execEvents [GuardEv.enter processOrderGuardSite, GuardEv.exit, GuardEv.exit]
        ((HybridStackTrace.init 32 currentTraceInitSite).add_dynamic_frame
          mainGuardSite)).dynamic_frames_ = []
      ∧ ((HybridStackTrace.init 32 currentTraceInitSite).add_dynamic_frame
          mainGuardSite).dynamic_frames_ = [mainGuardSite] := by
  constructor <;> rfl

/-- C6: pushing any origin and then popping returns the FrameLog exactly to
its previous state: `push` appends at the end and `pop` removes precisely the
last-appended entry. -/
theorem push_then_pop_roundtrip {N : Nat} (t : HybridStackTrace N)
    (f : CompileTimeFrame) :
    (t.add_dynamic_frame f).pop_dynamic_frame = t := by
  simp [HybridStackTrace.add_dynamic_frame, HybridStackTrace.pop_dynamic_frame,
    List.dropLast_concat]

/-- C7: a `CompileTimeFrame` with file `f`, line `l`, column `c` and function
`fn` renders as exactly `f` followed by `"("`, `l`, `":"`, `c`,
`") \x60"`, `fn`, `"\x60"`. -/
theorem compileTimeFrame_render_format (f : CompileTimeFrame) :
    f.render
      = f.file_name ++ "(" ++ toString f.line ++ ":" ++ toString f.column
          ++ ") `" ++ f.function_name ++ "`" := by
  simp [CompileTimeFrame.render, CompileTimeFrame.put, String.empty_append]

theorem push_frame_size_le {N : Nat} (t : CompileTimeStackTrace N)
    (f : CompileTimeFrame) (h : t.size ≤ N) : (t.push_frame f).size ≤ N := by
  by_cases h' : t.frames_.length < N
  · simp only [CompileTimeStackTrace.push_frame, CompileTimeStackTrace.size,
      h', if_pos, List.length_append, List.length_cons, List.length_nil]
    omega
  · simpa [CompileTimeStackTrace.push_frame, CompileTimeStackTrace.size, h']
      using h

theorem pushList_size_le {N : Nat} (fs : List CompileTimeFrame) :
    ∀ t : CompileTimeStackTrace N, t.size ≤ N → (t.pushList fs).size ≤ N := by
  induction fs with
  | nil => exact fun t h => h
  | cons f fs ih =>
      intro t h
      exact ih _ (push_frame_size_le t f h)

/-- C8: every `CompileTimeStackTrace<N>` reachable from the default
constructor (the class's only constructor, `push_frame` its only mutator) has
`size() ≤ N`, and once `size() = N` a further `push_frame` silently discards
the frame, leaving the trace unchanged — no raise, no out-of-bounds write. -/
theorem compileTimeStackTrace_bounded (N : Nat)
    (fs : List CompileTimeFrame) (f : CompileTimeFrame) :
    ((CompileTimeStackTrace.empty N).pushList fs).size ≤ N
      ∧ (((CompileTimeStackTrace.empty N).pushList fs).size = N →
          ((CompileTimeStackTrace.empty N).pushList fs).push_frame f
            = (CompileTimeStackTrace.empty N).pushList fs) := by
  refine ⟨pushList_size_le fs _ (Nat.zero_le N), fun hfull => ?_⟩
  unfold CompileTimeStackTrace.push_frame
  rw [if_neg]
  rw [show ((CompileTimeStackTrace.empty N).pushList fs).frames_.length
        = ((CompileTimeStackTrace.empty N).pushList fs).size from rfl, hfull]
  exact Nat.lt_irrefl N

theorem compileTimeStackTrace_bounded_witness :
    ((CompileTimeStackTrace.empty 2).pushList
        [mainGuardSite, processOrderGuardSite, findOrderGuardSite]).size ≤ 2
      ∧ ((CompileTimeStackTrace.empty 2).pushList
          [mainGuardSite, processOrderGuardSite, findOrderGuardSite]).push_frame
            updateOrderGuardSite
          = (CompileTimeStackTrace.empty 2).pushList
              [mainGuardSite, processOrderGuardSite, findOrderGuardSite] :=
  ⟨(compileTimeStackTrace_bounded 2
      [mainGuardSite, processOrderGuardSite, findOrderGuardSite]
      updateOrderGuardSite).1,
    (compileTimeStackTrace_bounded 2
      [mainGuardSite, processOrderGuardSite, findOrderGuardSite]
      updateOrderGuardSite).2 (by decide)⟩

theorem init_static_frames {N : Nat} (hN : 1 ≤ N) (f : CompileTimeFrame) :
    (HybridStackTrace.init N f).static_frames_.frames_ = [f] := by
  have h0 : 0 < N := hN
  simp [HybridStackTrace.init, CompileTimeStackTrace.empty,
    CompileTimeStackTrace.push_frame, h0]

/-- C9: any `HybridStackTrace<N>` (valid C++ requires `N ≥ 1`) reached from
its constructor by dynamic pushes and pops holds exactly one static frame,
the origin of its own construction site; its rendering emits every static
frame before any dynamic frame; and the number of rendered entries is the
number of dynamic frames plus one. -/
theorem hybridTrace_static_seed_and_render (N : Nat) (hN : 1 ≤ N)
    (f : CompileTimeFrame) (es : List GuardEv) :
    (execEvents es (HybridStackTrace.init N f)).static_frames_.frames_ = [f]
      ∧ (execEvents es (HybridStackTrace.init N f)).render
          = String.join
              ((execEvents es (HybridStackTrace.init N f)).static_frames_.frames_.map
                (fun g => "Static: " ++ g.render ++ "\n"))
            ++ String.join
              ((execEvents es (HybridStackTrace.init N f)).dynamic_frames_.map
                (fun g => "Dynamic: " ++ g.render ++ "\n"))
      ∧ ((execEvents es (HybridStackTrace.init N f)).renderLines).length
          = (execEvents es (HybridStackTrace.init N f)).dynamic_frames_.length
              + 1 := by
  have hstatic : (execEvents es (HybridStackTrace.init N f)).static_frames_.frames_ = [f] := by
    rw [execEvents_static es (HybridStackTrace.init N f)]
    exact init_static_frames hN f
  refine ⟨hstatic, ?_, ?_⟩
  · rw [HybridStackTrace.render, HybridStackTrace.put, putFrameLoop_eq,
      putFrameLoop_eq, String.empty_append]
  · simp [HybridStackTrace.renderLines, hstatic, Nat.add_comm]

theorem hybridTrace_static_seed_and_render_witness :
    (execEvents [GuardEv.enter mainGuardSite]
        (HybridStackTrace.init 32 currentTraceInitSite)).static_frames_.frames_
      = [currentTraceInitSite]
      ∧ (execEvents [GuardEv.enter mainGuardSite]
            (HybridStackTrace.init 32 currentTraceInitSite)).render
          = String.join
              ((execEvents [GuardEv.enter mainGuardSite]
                  (HybridStackTrace.init 32 currentTraceInitSite)).static_frames_.frames_.map
                (fun g => "Static: " ++ g.render ++ "\n"))
            ++ String.join
              ((execEvents [GuardEv.enter mainGuardSite]
                  (HybridStackTrace.init 32 currentTraceInitSite)).dynamic_frames_.map
                (fun g => "Dynamic: " ++ g.render ++ "\n"))
      ∧ ((execEvents [GuardEv.enter mainGuardSite]
            (HybridStackTrace.init 32 currentTraceInitSite)).renderLines).length
          = (execEvents [GuardEv.enter mainGuardSite]
              (HybridStackTrace.init 32 currentTraceInitSite)).dynamic_frames_.length
              + 1 :=
  hybridTrace_static_seed_and_render 32 (by decide) currentTraceInitSite
    [GuardEv.enter mainGuardSite]

/-- C10: when an id is absent from `orders`, both `findOrder(id)` and
`UpdateOrder(ord)` (with `ord.id_` absent) raise an `AlphaException` and
leave the orders table unchanged; `UpdateOrder` mutates the stored order only
on the success path, when the id is present. -/
theorem orders_mutated_only_on_success (st : ProgState) (id : Nat)
    (ordM ordH : Order) :
    (st.orders.lookup id = none →
        (∃ e, (findOrder id st).1 = Except.error e)
          ∧ (findOrder id st).2.orders = st.orders)
      ∧ (st.orders.lookup ordM.id_ = none →
          (∃ e, (UpdateOrder ordM st).1 = Except.error e)
            ∧ (UpdateOrder ordM st).2.orders = st.orders)
      ∧ (∀ o0, st.orders.lookup ordH.id_ = some o0 →
          (UpdateOrder ordH st).1 = Except.ok ordH
            ∧ (UpdateOrder ordH st).2.orders
                = setOrder st.orders ordH.id_ ordH) := by
  refine ⟨fun h => ?_, fun h => ?_, fun o0 h => ?_⟩
  · exact ⟨⟨⟨"Bad Order id", (), findOrderThrowSite,
        st.current_trace.add_dynamic_frame findOrderGuardSite⟩,
      by simp [findOrder, h]⟩, by simp [findOrder, h]⟩
  · exact ⟨⟨⟨"update error : ", (), updateOrderThrowSite,
        st.current_trace.add_dynamic_frame updateOrderGuardSite⟩,
      by simp [UpdateOrder, h]⟩, by simp [UpdateOrder, h]⟩
  · exact ⟨by simp [UpdateOrder, h], by simp [UpdateOrder, h]⟩

theorem orders_mutated_only_on_success_witness :
    ((∃ e, (findOrder 10
          ⟨ordersInit, HybridStackTrace.init 32 currentTraceInitSite⟩).1
        = Except.error e)
      ∧ (findOrder 10
          ⟨ordersInit, HybridStackTrace.init 32 currentTraceInitSite⟩).2.orders
        = ordersInit)
    ∧ ((∃ e, (UpdateOrder ⟨10, 3⟩
          ⟨ordersInit, HybridStackTrace.init 32 currentTraceInitSite⟩).1
        = Except.error e)
      ∧ (UpdateOrder ⟨10, 3⟩
          ⟨ordersInit, HybridStackTrace.init 32 currentTraceInitSite⟩).2.orders
        = ordersInit)
    ∧ ((UpdateOrder ⟨11, 3⟩
          ⟨ordersInit, HybridStackTrace.init 32 currentTraceInitSite⟩).1
        = Except.ok ⟨11, 3⟩
      ∧ (UpdateOrder ⟨11, 3⟩
          ⟨ordersInit, HybridStackTrace.init 32 currentTraceInitSite⟩).2.orders
        = setOrder ordersInit 11 ⟨11, 3⟩) :=
  ⟨(orders_mutated_only_on_success
      ⟨ordersInit, HybridStackTrace.init 32 currentTraceInitSite⟩
      10 ⟨10, 3⟩ ⟨11, 3⟩).1 rfl,
    (orders_mutated_only_on_success
      ⟨ordersInit, HybridStackTrace.init 32 currentTraceInitSite⟩
      10 ⟨10, 3⟩ ⟨11, 3⟩).2.1 rfl,
    (orders_mutated_only_on_success
      ⟨ordersInit, HybridStackTrace.init 32 currentTraceInitSite⟩
      10 ⟨10, 3⟩ ⟨11, 3⟩).2.2 ⟨11, 5⟩ rfl⟩

/-- C3: with the orders table holding only ids 1 and 11 and two enclosing
guarded calls already on the log (frames `f1` outermost, then `f2`),
`UpdateOrder` on id 10 — the third guarded level — raises an exception whose
`what()` is `"update error : "`, whose origin is the frame captured at the
`throw` site (so its `file_name` is the raising call site's file), and whose
captured FrameLog snapshot is the three guard frames `[f1, f2,
updateOrderGuardSite]`, outermost to innermost.  (The rendered HYBRID trace
additionally carries the log's one static construction-site frame; see C9.) -/
theorem updateOrder_missing_id_diagnostics (f1 f2 : CompileTimeFrame)
    (v : ℚ) (st : ProgState) (hord : st.orders = ordersInit)
    (hdyn : st.current_trace.dynamic_frames_ = [f1, f2]) :
    ordersInit.map Prod.fst = [1, 11]
      ∧ ordersInit.lookup 10 = none
      ∧ ∃ e : MyExceptionErrsVoid,
          (UpdateOrder ⟨10, v⟩ st).1 = Except.error e
            ∧ e.what = "update error : "
            ∧ e.whereLoc = updateOrderThrowSite
            ∧ e.whereLoc.file_name = alphaSourceFile
            ∧ (e.stack).dynamic_frames_ = [f1, f2, updateOrderGuardSite]
            ∧ ((e.stack).dynamic_frames_).length = 3 := by
  have hlook : st.orders.lookup (10 : Nat) = none := by rw [hord]; rfl
  refine ⟨rfl, rfl,
    ⟨"update error : ", (), updateOrderThrowSite,
      st.current_trace.add_dynamic_frame updateOrderGuardSite⟩,
    ?_, rfl, rfl, rfl, ?_, ?_⟩
  · simp [UpdateOrder, hlook]
  · simp [AlphaException.stack, HybridStackTrace.add_dynamic_frame, hdyn]
  · simp [AlphaException.stack, HybridStackTrace.add_dynamic_frame, hdyn]

theorem updateOrder_missing_id_diagnostics_witness :
    ordersInit.map Prod.fst = [1, 11]
      ∧ ordersInit.lookup 10 = none
      ∧ ∃ e : MyExceptionErrsVoid,
          (UpdateOrder ⟨10, 3⟩
              ⟨ordersInit,
                ((HybridStackTrace.init 32 currentTraceInitSite).add_dynamic_frame
                    mainGuardSite).add_dynamic_frame processOrderGuardSite⟩).1
            = Except.error e
            ∧ e.what = "update error : "
            ∧ e.whereLoc = updateOrderThrowSite
            ∧ e.whereLoc.file_name = alphaSourceFile
            ∧ (e.stack).dynamic_frames_
                = [mainGuardSite, processOrderGuardSite, updateOrderGuardSite]
            ∧ ((e.stack).dynamic_frames_).length = 3 :=
  updateOrder_missing_id_diagnostics mainGuardSite processOrderGuardSite 3
    ⟨ordersInit,
      ((HybridStackTrace.init 32 currentTraceInitSite).add_dynamic_frame
          mainGuardSite).add_dynamic_frame processOrderGuardSite⟩
    rfl (by decide)
